import Mathlib

/-!
# Verification of the workforce orchestration engine

A shallow embedding of the workforce agent found under `src/utu/agents/`:
the task-ledger data model (`workforce/data.py`), the Planner
(`workforce/planner.py`), the Assigner (`workforce/assigner.py`), the
Answerer (`workforce/answerer.py`) and the orchestrating run loop
(`workforce_agent.py`).  LLM calls are modelled by a script of response
strings consumed in call order; the tag-extraction regexes are modelled by
executable functions on character lists that mirror the lazy/DOTALL
patterns used in the source.
-/

/-! ## String helpers mirroring the Python string operations. -/

/-- Python whitespace as stripped by `str.strip()` (ASCII range). -/
def isPyWhitespace (c : Char) : Bool :=
  c = ' ' || c = '\t' || c = '\n' || c = '\r' || c = '\x0b' || c = '\x0c'

/-- Python `str.strip()`. -/
def pyStrip (s : String) : String :=
  String.mk (((s.data.dropWhile isPyWhitespace).reverse.dropWhile isPyWhitespace).reverse)

/-- Python `str.lower()` (the strings handled here are ASCII). -/
def pyLower (s : String) : String :=
  String.mk (s.data.map Char.toLower)

/-- First occurrence split: `splitFirst p l = some (pre, post)` when
`l = pre ++ p ++ post` with `pre` not containing `p`. -/
def splitFirst (p : List Char) : List Char → Option (List Char × List Char)
  | [] => if p.isEmpty then some ([], []) else none
  | c :: cs =>
    if p.isPrefixOf (c :: cs) then some ([], (c :: cs).drop p.length)
    else
      match splitFirst p cs with
      | some (pre, post) => some (c :: pre, post)
      | none => none

/-- Python `p in s` substring containment. -/
def strContainsSub (s p : String) : Bool :=
  (splitFirst p.data s.data).isSome

/-- Python `s.startswith(p)`. -/
def pyStartsWith (s p : String) : Bool :=
  p.data.isPrefixOf s.data

/-- Python `s.endswith(p)`. -/
def pyEndsWith (s p : String) : Bool :=
  p.data.reverse.isPrefixOf s.data.reverse

/-- `re.search(r"<tag>(.*?)</tag>", s, re.DOTALL)`: the earliest opening tag
followed by the earliest closing tag after it; `none` when no full match
exists. -/
def extractTagFirst (tag : String) (s : String) : Option String :=
  match splitFirst ("<" ++ tag ++ ">").data s.data with
  | none => none
  | some (_, afterOpen) =>
    match splitFirst ("</" ++ tag ++ ">").data afterOpen with
    | none => none
    | some (content, _) => some (String.mk content)

/-- `re.findall(r"<tag>(.*?)</tag>", s, re.DOTALL)`: successive
non-overlapping matches, resuming after each match end.  The fuel argument
is an upper bound on the number of matches (each match consumes at least
the opening tag, so `length + 1` always suffices). -/
def findallTagAux (openT closeT : List Char) : Nat → List Char → List String
  | 0, _ => []
  | fuel + 1, l =>
    match splitFirst openT l with
    | none => []
    | some (_, afterOpen) =>
      match splitFirst closeT afterOpen with
      | none => []
      | some (content, rest) => String.mk content :: findallTagAux openT closeT fuel rest

/-- All `<tag>…</tag>` matches of a string. -/
def findallTag (tag : String) (s : String) : List String :=
  findallTagAux ("<" ++ tag ++ ">").data ("</" ++ tag ++ ">").data (s.length + 1) s.data

/-! ## Data model (`src/utu/agents/workforce/data.py`). -/

/-- `Subtask` dataclass. -/
structure Subtask where
  task_id : Nat
  task_name : String
  task_description : Option String := none
  task_status : String := "not started"
  task_result : Option String := none
  task_result_detailed : Option String := none
  task_mode : Option String := none
  assigned_agent : Option String := none
  task_direct_answer : Option String := none
deriving DecidableEq

/-- Placeholder subtask used for out-of-range list reads. -/
def defaultSubtask : Subtask :=
  { task_id := 0, task_name := "" }

/-- One executor descriptor (`executor_agent_kwargs_list` entry). -/
structure ExecutorInfo where
  name : String
  description : String
  toolnames : List String
deriving DecidableEq

/-- `WorkforceTaskRecorder` dataclass.  In the source `failure_info` is
declared `str` with default `""` and is only ever assigned strings; it is
modelled as `Option String` (with `none` for Python `None`) because
`PlannerAgent.plan_task` branches on `failure_info is None`.  The
`final_output` field and its setter live on the base class
`utu.common.TaskRecorder`, which is not in the source tree; they are
modelled from the spec (§3 Ledger: `final_output`, initially empty). -/
structure WorkforceTaskRecorder where
  overall_task : String := ""
  executor_agent_kwargs_list : List ExecutorInfo := []
  task_plan : List Subtask := []
  failure_info : Option String := some ""
  experience_from_failure : String := ""
  tentative_answer : String := ""
  tentative_answer_confidence : String := ""
  tentative_answer_uniqueness_assessment : String := ""
  final_output : String := ""
deriving DecidableEq

namespace WorkforceTaskRecorder

/-- `plan_init`: replace the plan with the given list. -/
def plan_init (r : WorkforceTaskRecorder) (plan_list : List Subtask) : WorkforceTaskRecorder :=
  { r with task_plan := plan_list }

/-- `plan_update`: keep `task_plan[: task.task_id]` and append the new tail
`Subtask(task_id=task.task_id + i, task_name=t) for i, t in enumerate(updated_plan, 1)`. -/
def plan_update (r : WorkforceTaskRecorder) (task : Subtask) (updated_plan : List String) :
    WorkforceTaskRecorder :=
  let finished_tasks := r.task_plan.take task.task_id
  let new_tasks := updated_plan.enum.map
    (fun it => ({ task_id := task.task_id + it.1 + 1, task_name := it.2 } : Subtask))
  { r with task_plan := finished_tasks ++ new_tasks }

/-- Index of the first subtask with status `"not started"` (the subtask
`get_next_task` returns; the index records which plan entry is aliased by
the Python object reference). -/
def next_task_idx (r : WorkforceTaskRecorder) : Option Nat :=
  r.task_plan.findIdx? (fun t => t.task_status == "not started")

/-- `get_next_task`. -/
def get_next_task (r : WorkforceTaskRecorder) : Option Subtask :=
  r.task_plan.find? (fun t => t.task_status == "not started")

/-- Write back an in-place mutation of the plan entry at index `i`. -/
def set_task_at (r : WorkforceTaskRecorder) (i : Nat) (t : Subtask) : WorkforceTaskRecorder :=
  { r with task_plan := r.task_plan.set i t }

/-- `has_failed_task`. -/
def has_failed_task (r : WorkforceTaskRecorder) : Bool :=
  r.task_plan.any (fun t => t.task_status == "failed")

/-- `update_failure_info`. -/
def update_failure_info (r : WorkforceTaskRecorder) (s : String) : WorkforceTaskRecorder :=
  { r with failure_info := some s }

/-- `update_experience_from_failure`. -/
def update_experience_from_failure (r : WorkforceTaskRecorder) (s : String) :
    WorkforceTaskRecorder :=
  { r with experience_from_failure := s }

/-- `update_tentative_answer`. -/
def update_tentative_answer (r : WorkforceTaskRecorder) (answer confidence uniqueness : String) :
    WorkforceTaskRecorder :=
  { r with tentative_answer := answer, tentative_answer_confidence := confidence,
           tentative_answer_uniqueness_assessment := uniqueness }

/-- `check_tentative_answer_quality`: acceptable iff confidence is high or
medium and the uniqueness assessment is not `"non-unique"`; otherwise the
failure reason joins the applicable messages with `" and "`. -/
def check_tentative_answer_quality (r : WorkforceTaskRecorder) : Bool × String :=
  let acceptable :=
    (r.tentative_answer_confidence == "high" || r.tentative_answer_confidence == "medium")
      && !(r.tentative_answer_uniqueness_assessment == "non-unique")
  let failure_reasons :=
    (if !acceptable && r.tentative_answer_confidence == "low"
      then ["answer confidence too low"] else [])
    ++ (if !acceptable && (r.tentative_answer_uniqueness_assessment == "unclear"
          || r.tentative_answer_uniqueness_assessment == "non-unique")
      then ["answer uniqueness insufficient"] else [])
  (acceptable, String.intercalate " and " failure_reasons)

/-- `set_final_output`.  Modelled from the spec: the setter belongs to the
base `TaskRecorder` class (`utu/common`), absent from the source tree; per
spec §3 it stores the final output string on the ledger. -/
def set_final_output (r : WorkforceTaskRecorder) (s : String) : WorkforceTaskRecorder :=
  { r with final_output := s }

end WorkforceTaskRecorder

/-! ## Answerer (`src/utu/agents/workforce/answerer.py`). -/

namespace AnswererAgent

/-- The local `_check(s, p)` helper of `_parse_final_response`:
`s.startswith(p) or " " + p + " " in s or s.endswith(p)`. -/
def check_keyword (s p : String) : Bool :=
  pyStartsWith s p || strContainsSub s (" " ++ p ++ " ") || pyEndsWith s p

/-- `_parse_final_response`: returns `(final_answer, confidence, uniqueness)`.
Missing tags default to the whole response / `"low"` / `"unclear"`; the tag
contents are stripped, lowercased and keyword-matched in source order
(`"high"` before `"medium"`, `"unique"` before `"non-unique"`). -/
def parse_final_response (response : String) : String × String × String :=
  let final_answer :=
    match extractTagFirst "answer" response with
    | some a => pyStrip a
    | none => pyStrip response
  let confidence_text :=
    match extractTagFirst "confidence" response with
    | some c => pyLower (pyStrip c)
    | none => "low"
  let confidence :=
    if check_keyword confidence_text "high" then "high"
    else if check_keyword confidence_text "medium" then "medium"
    else "low"
  let uniqueness_text :=
    match extractTagFirst "answer_uniqueness" response with
    | some u => pyLower (pyStrip u)
    | none => "unclear"
  let uniqueness_assessment :=
    if check_keyword uniqueness_text "unique" then "unique"
    else if check_keyword uniqueness_text "non-unique" then "non-unique"
    else "unclear"
  (final_answer, confidence, uniqueness_assessment)

/-- `extract_final_answer` applied to a model response: parses and stores
the tentative answer triple on the recorder. -/
def extract_final_answer (r : WorkforceTaskRecorder) (modelOutput : String) :
    WorkforceTaskRecorder :=
  let parsed := parse_final_response modelOutput
  r.update_tentative_answer parsed.1 parsed.2.1 parsed.2.2

/-- The value `answer_self_check` computes from the self-check model
response: `True` exactly when a `<correct>` tag is present and its
stripped, lowercased content equals `"yes"`.  Note the source returns this
bare `bool` (annotated `-> bool`), not a `(bool, analysis)` pair. -/
def answer_self_check_value (response : String) : Bool :=
  match extractTagFirst "correct" response with
  | some m => pyLower (pyStrip m) == "yes"
  | none => false

/-- Well-formed Answerer output, serialized per the tagged protocol
(spec §6 table: `<answer>`, `<confidence>`, `<answer_uniqueness>`); used to
state the round-trip property. -/
def serialize_final_answer (answer confidence uniqueness : String) : String :=
  "<answer>" ++ answer ++ "</answer>\n<confidence>" ++ confidence
    ++ "</confidence>\n<answer_uniqueness>" ++ uniqueness ++ "</answer_uniqueness>"

end AnswererAgent

/-! ## Assigner (`src/utu/agents/workforce/assigner.py`). -/

/-- The dict returned by `AssignerAgent._parse_assign_result`. -/
structure AssignResult where
  mode : String
  assign_agent : String
  task_description : String
  direct_answer : String
deriving DecidableEq

namespace AssignerAgent

/-- `_parse_assign_result`.  A missing `<mode>` or `<selected_agent>` tag
makes `.group(1)` raise (`None` has no attribute `group`); the exception is
caught and re-raised as `ValueError`, modelled as `.error`.  When the
stripped mode is exactly `"DIRECT_ANSWER"` a `<direct_answer>` tag is
required, otherwise a `<detailed_task_description>` tag is required. -/
def parse_assign_result (response : String) : Except String AssignResult :=
  match extractTagFirst "mode" response with
  | none => .error "Failed to parse assignment result"
  | some m0 =>
    let mode := pyStrip m0
    match extractTagFirst "selected_agent" response with
    | none => .error "Failed to parse assignment result"
    | some a0 =>
      let selected_agent := pyStrip a0
      if mode == "DIRECT_ANSWER" then
        match extractTagFirst "direct_answer" response with
        | none => .error "Failed to parse assignment result"
        | some d =>
          .ok { mode := mode, assign_agent := selected_agent,
                task_description := "", direct_answer := pyStrip d }
      else
        match extractTagFirst "detailed_task_description" response with
        | none => .error "Failed to parse assignment result"
        | some d =>
          .ok { mode := mode, assign_agent := selected_agent,
                task_description := pyStrip d, direct_answer := "" }

/-- The tail of `assign_task`: in-place update of the next task from the
parse result.  Any mode other than the exact string `"DIRECT_ANSWER"` is
handled by the `else` branch, which records `task_mode = "ASSIGN_AGENT"`. -/
def apply_assign_result (t : Subtask) (res : AssignResult) : Subtask :=
  if res.mode == "DIRECT_ANSWER" then
    { t with assigned_agent := some res.assign_agent,
             task_mode := some "DIRECT_ANSWER",
             task_direct_answer := some res.direct_answer }
  else
    { t with assigned_agent := some res.assign_agent,
             task_mode := some "ASSIGN_AGENT",
             task_description := some res.task_description }

end AssignerAgent

/-! ## Planner (`src/utu/agents/workforce/planner.py`). -/

/-- Which prompt template `plan_task` formats: `TASK_PLAN_PROMPT`
(initial plan, reads only the overall task and executor info) or
`TASK_REPLAN_PROMPT` (replan, additionally reads `failure_info`). -/
inductive PlanPromptKind where
  | initialPlan
  | replan
deriving DecidableEq

namespace PlannerAgent

/-- Task-name extraction of `plan_task`:
`re.findall(r"<task>(.*?)</task>", out)` then strip and drop empties. -/
def parse_plan_tasks (modelOutput : String) : List String :=
  ((findallTag "task" modelOutput).map pyStrip).filter (fun t => !(t == ""))

/-- The list comprehension materializing subtasks:
`[Subtask(task_id=i + 1, task_name=task) for i, task in enumerate(tasks_content)]`. -/
def materialize_subtasks (names : List String) : List Subtask :=
  names.enum.map (fun it => ({ task_id := it.1 + 1, task_name := it.2 } : Subtask))

/-- `plan_task` applied to one model response.  The source branches on
`recorder.failure_info is None` — not on emptiness — both for the prompt
choice and for whether `<helpful_experience_or_fact>` is extracted; a
non-empty stripped experience is stored via
`update_experience_from_failure`. -/
def plan_task (r : WorkforceTaskRecorder) (modelOutput : String) :
    WorkforceTaskRecorder × PlanPromptKind :=
  let tasks := materialize_subtasks (parse_plan_tasks modelOutput)
  match r.failure_info with
  | none => (r.plan_init tasks, .initialPlan)
  | some _ =>
    let r1 := r.plan_init tasks
    let r2 :=
      match extractTagFirst "helpful_experience_or_fact" modelOutput with
      | some e =>
        if !(pyStrip e == "") then r1.update_experience_from_failure (pyStrip e) else r1
      | none => r1
    (r2, .replan)

/-- Match `\d+` at the head: at least one digit, greedily consumed. -/
def dropDigits1 : List Char → Option (List Char)
  | c :: cs => if c.isDigit then some ((c :: cs).dropWhile Char.isDigit) else none
  | [] => none

/-- After the literal `<task`, match `(?:_id:\d+[^>]*)?>`: try the optional
group (then `[^>]*` greedily, then a mandatory `>`), falling back to an
immediate `>`; returns the remainder after `>`. -/
def matchOpenTagTail (l : List Char) : Option (List Char) :=
  let viaGroup : Option (List Char) :=
    if ("_id:".data).isPrefixOf l then
      match dropDigits1 (l.drop 4) with
      | some rest =>
        match rest.dropWhile (fun c => !(c == '>')) with
        | '>' :: r => some r
        | _ => none
      | none => none
    else none
  match viaGroup with
  | some r => some r
  | none =>
    match l with
    | '>' :: r => some r
    | _ => none

/-- After the literal `</task`, match the trailing `(?:_id:\d+[^>]*)?`
(greedy, optional, nothing follows): consume the group when it fully
matches, else nothing. -/
def matchCloseTagTail (l : List Char) : List Char :=
  if ("_id:".data).isPrefixOf l then
    match dropDigits1 (l.drop 4) with
    | some rest => rest.dropWhile (fun c => !(c == '>'))
    | none => l
  else l

/-- Try the combined pattern
`<task(?:_id:\d+[^>]*)?>([^<]*?)</task(?:_id:\d+[^>]*)?` at the start of
`l`; on success return the capture and the remainder after the match.  The
lazy `[^<]*?` capture cannot cross `<`, so the capture runs to the first
`<`, which must open `</task`. -/
def matchCombinedAt (l : List Char) : Option (String × List Char) :=
  if ("<task".data).isPrefixOf l then
    match matchOpenTagTail (l.drop 5) with
    | none => none
    | some afterOpen =>
      let content := afterOpen.takeWhile (fun c => !(c == '<'))
      let rest := afterOpen.dropWhile (fun c => !(c == '<'))
      if ("</task".data).isPrefixOf rest then
        some (String.mk content, matchCloseTagTail (rest.drop 6))
      else none
  else none

/-- `re.findall` scan for the combined pattern: try each position left to
right, resuming after each match end. -/
def scanCombined : Nat → List Char → List String
  | 0, _ => []
  | _, [] => []
  | fuel + 1, c :: cs =>
    match matchCombinedAt (c :: cs) with
    | some (cap, rest) => cap :: scanCombined fuel rest
    | none => scanCombined fuel cs

/-- The `<task…>` matches inside `<updated_unfinished_task_plan>`, stripped
with empties dropped (`updated_tasks` before the `if not updated_tasks`
coercion to `None`). -/
def parse_updated_plan_tasks (content : String) : List String :=
  ((scanCombined (content.length + 1) content.data).map pyStrip).filter (fun t => !(t == ""))

/-- `_parse_update_response`: the `<choice>` tag (stripped, lowercased,
defaulting to `"continue"` when absent) and, only for `"update"`, the task
list parsed from `<updated_unfinished_task_plan>` (`none` when the tag is
absent or yields no tasks). -/
def parse_update_response (response : String) : String × Option (List String) :=
  let choice :=
    match extractTagFirst "choice" response with
    | some c => pyLower (pyStrip c)
    | none => "continue"
  if choice == "update" then
    match extractTagFirst "updated_unfinished_task_plan" response with
    | some planContent =>
      let updated_tasks := parse_updated_plan_tasks (pyStrip planContent)
      (choice, if updated_tasks.isEmpty then none else some updated_tasks)
    | none => (choice, none)
  else (choice, none)

/-- `plan_update` given the model response it would receive.  Returns
`(choice, new_budget, new_recorder)`, or `.error` for the `ValueError`
raised on an unexpected choice.  With `_modify_plan_budgets <= 0` the
method returns `"continue"` before any model call; on a parsed `"update"`
the budget is decremented and the recorder's plan is rewritten only when
the parsed tail is non-empty (otherwise the choice falls back to
`"continue"`). -/
def plan_update (budget : Int) (r : WorkforceTaskRecorder) (task : Subtask)
    (modelOutput : String) : Except String (String × Int × WorkforceTaskRecorder) :=
  if budget ≤ 0 then .ok ("continue", budget, r)
  else
    let parsed := parse_update_response modelOutput
    let choice := parsed.1
    let updated_plan := parsed.2
    if choice == "continue" then .ok ("continue", budget, r)
    else if choice == "update" then
      let budget1 := budget - 1
      match updated_plan with
      | some up =>
        if 0 < up.length then .ok ("update", budget1, r.plan_update task up)
        else .ok ("continue", budget1, r)
      | none => .ok ("continue", budget1, r)
    else if choice == "early_completion" then .ok ("early_completion", budget, r)
    else .error choice

/-- `_parse_check_response`: `<task_status>` content stripped and
lowercased; any value containing `"partial"` or any unrecognized or
missing value yields `"partial success"`. -/
def parse_check_response (response : String) : String :=
  match extractTagFirst "task_status" response with
  | some m =>
    let task_status := pyLower (pyStrip m)
    if strContainsSub task_status "partial" then "partial success"
    else if task_status == "success" || task_status == "failed"
        || task_status == "partial success" then task_status
    else "partial success"
  | none => "partial success"

/-- `plan_check` applied to one model response: writes the parsed status
onto the subtask. -/
def plan_check (t : Subtask) (modelOutput : String) : Subtask :=
  { t with task_status := parse_check_response modelOutput }

/-- `reflect_on_failure` applied to one model response: the reflection text
(with the additional context appended when non-empty) is written to
`failure_info`. -/
def reflect_on_failure (r : WorkforceTaskRecorder) (additional_context : String)
    (modelOutput : String) : WorkforceTaskRecorder :=
  let reflection_result :=
    if !(additional_context == "") then modelOutput ++ "\n\n" ++ additional_context
    else modelOutput
  r.update_failure_info reflection_result

end PlannerAgent

/-! ## Executor (spec-modelled) and configuration. -/

namespace ExecutorAgent

/-- Modelled from the spec: `ExecutorAgent.execute_task` — the file
`src/utu/agents/workforce/executor.py` is imported by the package but is
not in the source tree.  Per spec §4.2, `execute(ledger, subtask)` runs the
tool-use conversation (modelled here as consuming one model response whose
text becomes the result), sets `subtask.result` and
`subtask.result_detailed`, and leaves the status as `in_progress` for the
Planner's check. -/
def execute_task (t : Subtask) (modelOutput : String) : Subtask :=
  { t with task_result := some modelOutput,
           task_result_detailed := some modelOutput,
           task_status := "in progress" }

end ExecutorAgent

/-- `config.workforce_config.get("planner_modify_budgets", 3)`
(`PlannerAgent.__init__`). -/
def getPlannerModifyBudgets (configured : Option Int) : Int :=
  configured.getD 3

/-- `config.workforce_config.get("planner_max_reflection", 1)`
(`WorkforceAgent.__init__`). -/
def getPlannerMaxReflection (configured : Option Nat) : Nat :=
  configured.getD 1

/-- The configuration slice the run loop reads: the reflection bound, the
planner's plan-modify budget, and the keys of
`config.workforce_executor_agents` (which become the keys of
`executor_agent_group`). -/
structure WorkforceConfig where
  planner_max_reflection : Nat := 1
  planner_modify_budgets : Int := 3
  executor_agent_names : List String := []
deriving DecidableEq

/-! ## Orchestrator (`src/utu/agents/workforce_agent.py`). -/

/-- Ways the modelled run aborts instead of returning the recorder. -/
inductive RunErr where
  /-- The response script is exhausted where the source makes a model call
  (spec §7 `LLMCallFailed`: fatal to the run). -/
  | llmNoResponse
  /-- `ValueError` from `_parse_assign_result`, uncaught in `run`. -/
  | assignParseError
  /-- `executor_agent_group[next_task.assigned_agent]` raises `KeyError`
  for an agent name that is not a registry key; `run` has no handler. -/
  | executorKeyError (agent : String)
  /-- `ValueError` from `plan_update` on an unexpected choice value. -/
  | planChoiceValueError (choice : String)
  /-- `TypeError` at `self_check_passed, self_check_failure_analysis =
  await answerer_agent.answer_self_check(recorder)`: the callee returns a
  bare `bool`, which cannot be unpacked into a pair. -/
  | selfCheckUnpackTypeError
  /-- Inner interpreter fuel ran out (proved unreachable below). -/
  | fuelExhaustedInner
  /-- Outer interpreter fuel ran out (proved unreachable below). -/
  | fuelExhaustedOuter
deriving DecidableEq

/-- Interpreter state: the shared recorder, the not-yet-consumed model
response script, and the planner's `_modify_plan_budgets` (owned by the
`PlannerAgent` instance created once per run). -/
structure RunState where
  recorder : WorkforceTaskRecorder
  responses : List String
  budgets : Int
deriving DecidableEq

/-- Outcome of one inner-loop body (`run` lines 56-87): continue looping,
break out of the inner loop, or abort the run. -/
inductive InnerStep where
  | next (st : RunState)
  | stop (st : RunState)
  | fail (e : RunErr) (st : RunState)
deriving DecidableEq

namespace WorkforceAgent

/-- The plan-update step of the inner loop (`run` lines 79-87 plus
`PlannerAgent.plan_update`): with budget exhausted the planner replies
`"continue"` without a model call; otherwise one response is consumed and
parsed, `early_completion` breaks the loop, `continue`/`update` proceed,
and an unexpected choice raises. -/
def plan_update_step (st : RunState) (task : Subtask) : InnerStep :=
  if st.budgets ≤ 0 then .next st
  else
    match st.responses with
    | [] => .fail .llmNoResponse st
    | resp :: rest =>
      match PlannerAgent.plan_update st.budgets st.recorder task resp with
      | .error c => .fail (.planChoiceValueError c) { st with responses := rest }
      | .ok (choice, budget1, r1) =>
        let st1 : RunState := { recorder := r1, responses := rest, budgets := budget1 }
        if choice == "early_completion" then .stop st1 else .next st1

/-- The execute step of the inner loop (`run` lines 59-73), entered after
the assignment has been written onto the plan entry at index `i`: a
`DIRECT_ANSWER` task is marked `success` with its direct answer as result;
otherwise the executor registry is indexed (a `KeyError` for an unknown
key), the executor runs (one model response becoming the result), and
`plan_check` (one model response) writes the checked status. -/
def execute_phase (cfg : WorkforceConfig) (st1 : RunState) (i : Nat) (nt1 : Subtask)
    (res : AssignResult) : InnerStep :=
  if nt1.task_mode == some "DIRECT_ANSWER" then
    let nt2 := { nt1 with
      task_status := "success",
      task_result := nt1.task_direct_answer,
      task_result_detailed := nt1.task_direct_answer }
    .next { st1 with recorder := st1.recorder.set_task_at i nt2 }
  else
    if cfg.executor_agent_names.contains res.assign_agent then
      match st1.responses with
      | [] => .fail .llmNoResponse st1
      | execResp :: rest1 =>
        let nt2 := ExecutorAgent.execute_task nt1 execResp
        let st2 : RunState :=
          { st1 with recorder := st1.recorder.set_task_at i nt2, responses := rest1 }
        match rest1 with
        | [] => .fail .llmNoResponse st2
        | checkResp :: rest2 =>
          let nt3 := PlannerAgent.plan_check nt2 checkResp
          let st3 : RunState :=
            { st2 with recorder := st2.recorder.set_task_at i nt3, responses := rest2 }
          .next st3
    else .fail (.executorKeyError res.assign_agent) st1

/-- One inner-loop body, entered with the index `i` of the next
`not started` subtask and the already-consumed assigner response
(`assign_task` makes exactly one model call): parse the assignment, mutate
the plan entry in place, run the execute phase; finally break if no
`not started` subtask remains, else run the plan-update step. -/
def inner_body (cfg : WorkforceConfig) (st : RunState) (i : Nat) (assignResp : String) :
    InnerStep :=
  let nt := st.recorder.task_plan.getD i defaultSubtask
  match AssignerAgent.parse_assign_result assignResp with
  | .error _ => .fail .assignParseError st
  | .ok res =>
    let nt1 := AssignerAgent.apply_assign_result nt res
    let st1 : RunState := { st with recorder := st.recorder.set_task_at i nt1 }
    match execute_phase cfg st1 i nt1 res with
    | .next st4 =>
      let nt4 := st4.recorder.task_plan.getD i defaultSubtask
      match st4.recorder.next_task_idx with
      | none => .stop st4
      | some _ => plan_update_step st4 nt4
    | .stop st4 => .stop st4
    | .fail e st4 => .fail e st4

/-- The inner `while recorder.get_next_task() is not None` loop.  Each
iteration begins with the assigner's model call, so the response script
length bounds the iteration count; the fuel only realizes that bound. -/
def inner_loop (cfg : WorkforceConfig) : Nat → RunState → RunState × Option RunErr
  | 0, st => (st, some .fuelExhaustedInner)
  | fuel + 1, st =>
    match st.recorder.next_task_idx with
    | none => (st, none)
    | some i =>
      match st.responses with
      | [] => (st, some .llmNoResponse)
      | assignResp :: rest =>
        match inner_body cfg { st with responses := rest } i assignResp with
        | .next st1 => inner_loop cfg fuel st1
        | .stop st1 => (st1, none)
        | .fail e st1 => (st1, some e)

/-- Additional context formatted from `REFLECTION_FAILURE_PROMPT_1`.
Modelled from the spec: the planner prompt templates
(`agents/workforce/planner.yaml`) are not in the source tree; per spec
§4.6 the quality-gate failure context carries the tentative answer and the
failure reason, and being a formatted template it is non-empty. -/
def reflection_failure_context_1 (tentative_answer failure_reason : String) : String :=
  "REFLECTION_FAILURE_PROMPT_1 tentative_answer=" ++ tentative_answer
    ++ " failure_reason=" ++ failure_reason

/-- Outcome of the self-reflection tail of one outer iteration
(`run` lines 89-125). -/
inductive OuterStep where
  | done (st : RunState)
  | reflect (st : RunState)
  | fail (e : RunErr) (st : RunState)
deriving DecidableEq

/-- The self-reflection tail of one outer iteration: break once the
reflection counter has reached `planner_max_reflection`; otherwise reflect
on a failed subtask, or extract the tentative answer and check its
quality, reflecting on failure; when quality passes, `answer_self_check`
makes its model call and then the orchestrator's tuple unpacking of the
returned `bool` raises `TypeError`, so the branch that would call
`set_final_output` (line 124) is unreachable. -/
def gate_step (cfg : WorkforceConfig) (st : RunState) (count : Nat) : OuterStep :=
  if cfg.planner_max_reflection ≤ count then .done st
  else
    if st.recorder.has_failed_task then
      match st.responses with
      | [] => .fail .llmNoResponse st
      | resp :: rest =>
        .reflect { st with
          recorder := PlannerAgent.reflect_on_failure st.recorder "" resp,
          responses := rest }
    else
      match st.responses with
      | [] => .fail .llmNoResponse st
      | ansResp :: rest =>
        let r1 := AnswererAgent.extract_final_answer st.recorder ansResp
        let quality := r1.check_tentative_answer_quality
        if !quality.1 then
          match rest with
          | [] => .fail .llmNoResponse { recorder := r1, responses := rest, budgets := st.budgets }
          | reflResp :: rest2 =>
            let ctx := reflection_failure_context_1 r1.tentative_answer quality.2
            .reflect { recorder := PlannerAgent.reflect_on_failure r1 ctx reflResp,
                       responses := rest2, budgets := st.budgets }
        else
          match rest with
          | [] => .fail .llmNoResponse { recorder := r1, responses := rest, budgets := st.budgets }
          | scResp :: rest2 =>
            let _passed := AnswererAgent.answer_self_check_value scResp
            .fail .selfCheckUnpackTypeError
              { recorder := r1, responses := rest2, budgets := st.budgets }

/-- Result of a modelled run: the final interpreter state, the number of
`plan_task` calls made, and `none` for a normal return of the recorder or
`some e` when the run aborted. -/
structure RunResult where
  state : RunState
  planTaskCalls : Nat
  error : Option RunErr
deriving DecidableEq

/-- The outer `while True` reflection loop (`run` lines 48-125).  Each
iteration calls `plan_task` (one model call), runs the inner loop, then
the gate step; `reflect` re-enters with the counter incremented.  A `done`
gate outcome is a `break` out of `while True`, and because a `while True`
loop never exits by its condition becoming false, the `else:` clause at
lines 127-129 (which would copy `tentative_answer` into an empty
`final_output`) never executes — the run returns the recorder as the gate
left it. -/
def outer_loop (cfg : WorkforceConfig) :
    Nat → Nat → Nat → RunState → RunResult
  | 0, _, calls, st => ⟨st, calls, some .fuelExhaustedOuter⟩
  | fuel + 1, count, calls, st =>
    match st.responses with
    | [] => ⟨st, calls, some .llmNoResponse⟩
    | planResp :: rest =>
      let planned := PlannerAgent.plan_task st.recorder planResp
      let st1 : RunState := { st with recorder := planned.1, responses := rest }
      let calls1 := calls + 1
      match inner_loop cfg (st1.responses.length + 1) st1 with
      | (st2, some e) => ⟨st2, calls1, some e⟩
      | (st2, none) =>
        match gate_step cfg st2 count with
        | .done st3 => ⟨st3, calls1, none⟩
        | .fail e st3 => ⟨st3, calls1, some e⟩
        | .reflect st3 => outer_loop cfg fuel (count + 1) calls1 st3

/-- `WorkforceAgent.run`: build the fresh recorder (with `failure_info`
at its dataclass default `""`) and drive the reflection loop.  The outer
fuel `planner_max_reflection + 1` is exactly the number of outer
iterations the counter check permits (proved below: the fuel never runs
out). -/
def run (cfg : WorkforceConfig) (input : String) (responses : List String) : RunResult :=
  let recorder : WorkforceTaskRecorder := { overall_task := input }
  outer_loop cfg (cfg.planner_max_reflection + 1) 0 0
    { recorder := recorder, responses := responses, budgets := cfg.planner_modify_budgets }

end WorkforceAgent


/-- Ids form the contiguous sequence `1..N` in order (spec §3 Plan
invariant). -/
def planIdsContiguous (plan : List Subtask) : Prop :=
  ∀ j, j < plan.length → (plan.getD j defaultSubtask).task_id = j + 1

/-- Response script on which the quality gate passes and the self-check
model replies yes. -/
def script_c1 : List String :=
  ["<task>compute 21*2</task>",
   "<mode>DIRECT_ANSWER</mode><selected_agent>MathExec</selected_agent><direct_answer>42</direct_answer>",
   "<answer>42</answer><confidence>high</confidence><answer_uniqueness>unique</answer_uniqueness>",
   "<correct>yes</correct>"]

/-- Response script on which the first iteration's quality check fails
(confidence `low`) and the second iteration exhausts the reflection
budget. -/
def script_c2 : List String :=
  ["<task>find the answer</task>",
   "<mode>DIRECT_ANSWER</mode><selected_agent>MathExec</selected_agent><direct_answer>draft</direct_answer>",
   "<answer>X</answer><confidence>low</confidence><answer_uniqueness>unique</answer_uniqueness>",
   "reflection analysis",
   "<task>retry</task>",
   "<mode>DIRECT_ANSWER</mode><selected_agent>MathExec</selected_agent><direct_answer>42</direct_answer>"]

/-- Response script on which the quality gate passes and the self-check
model replies no. -/
def script_c5 : List String :=
  ["<task>compute</task>",
   "<mode>DIRECT_ANSWER</mode><selected_agent>MathExec</selected_agent><direct_answer>42</direct_answer>",
   "<answer>42</answer><confidence>medium</confidence><answer_uniqueness>unique</answer_uniqueness>",
   "<correct>no</correct>"]

/-- Response script whose assigner reply selects an executor name that is
not a key of the executor registry. -/
def script_c6 : List String :=
  ["<task>t</task>",
   "<mode>ASSIGN_AGENT</mode><selected_agent>ghost</selected_agent><detailed_task_description>do it</detailed_task_description>"]

/-! ## Interpreter sanity: the fuel parameters never cut the run short. -/

/-- State carried by an inner-loop outcome. -/
def InnerStep.state : InnerStep → RunState
  | .next st => st
  | .stop st => st
  | .fail _ st => st

namespace WorkforceAgent

theorem plan_update_step_state_le {st : RunState} {t : Subtask} {out : InnerStep}
    (h : plan_update_step st t = out) :
    out.state.responses.length ≤ st.responses.length := by
  subst h
  unfold plan_update_step
  split
  · exact Nat.le_refl _
  · split
    · exact Nat.le_refl _
    · rename_i resp rest heq
      have hlen : rest.length + 1 = st.responses.length := by
        rw [heq]; rfl
      split
      · simp only [InnerStep.state]; omega
      · split <;> (simp only [InnerStep.state]; omega)

theorem plan_update_step_err {st : RunState} {t : Subtask} {e : RunErr} {st1 : RunState}
    (h : plan_update_step st t = .fail e st1) :
    e = .llmNoResponse ∨ ∃ c, e = .planChoiceValueError c := by
  unfold plan_update_step at h
  split at h
  · exact absurd h (by simp)
  · split at h
    · exact Or.inl (by injection h with h1 _; exact h1.symm)
    · split at h
      · injection h with h1 _
        exact Or.inr ⟨_, h1.symm⟩
      · split at h <;> exact absurd h (by simp)

theorem execute_phase_state_le {cfg : WorkforceConfig} {st1 : RunState} {i : Nat}
    {nt1 : Subtask} {res : AssignResult} {out : InnerStep}
    (h : execute_phase cfg st1 i nt1 res = out) :
    out.state.responses.length ≤ st1.responses.length := by
  subst h
  unfold execute_phase
  split
  · exact Nat.le_refl _
  · split
    · split
      · exact Nat.le_refl _
      · rename_i execResp rest1 heq
        have hlen : rest1.length + 1 = st1.responses.length := by
          rw [heq]; rfl
        split
        · simp only [InnerStep.state]; omega
        · rename_i checkResp rest2
          simp only [InnerStep.state, List.length_cons] at hlen ⊢
          omega
    · exact Nat.le_refl _

theorem execute_phase_err {cfg : WorkforceConfig} {st1 : RunState} {i : Nat}
    {nt1 : Subtask} {res : AssignResult} {e : RunErr} {st2 : RunState}
    (h : execute_phase cfg st1 i nt1 res = .fail e st2) :
    e = .llmNoResponse ∨ ∃ a, e = .executorKeyError a := by
  unfold execute_phase at h
  split at h
  · exact absurd h (by simp)
  · split at h
    · split at h
      · exact Or.inl (by injection h with h1 _; exact h1.symm)
      · split at h
        · exact Or.inl (by injection h with h1 _; exact h1.symm)
        · exact absurd h (by simp)
    · injection h with h1 _
      exact Or.inr ⟨_, h1.symm⟩

theorem inner_body_state_le {cfg : WorkforceConfig} {st : RunState} {i : Nat}
    {assignResp : String} {out : InnerStep}
    (h : inner_body cfg st i assignResp = out) :
    out.state.responses.length ≤ st.responses.length := by
  subst h
  simp only [inner_body]
  split
  · exact Nat.le_refl _
  · split
    · rename_i st4 heq
      have hex := execute_phase_state_le heq
      simp only [InnerStep.state] at hex
      split
      · exact hex
      · exact Nat.le_trans (plan_update_step_state_le rfl) hex
    · rename_i st4 heq
      have hex := execute_phase_state_le heq
      exact hex
    · rename_i e st4 heq
      have hex := execute_phase_state_le heq
      exact hex

theorem inner_body_err {cfg : WorkforceConfig} {st : RunState} {i : Nat}
    {assignResp : String} {e : RunErr} {st1 : RunState}
    (h : inner_body cfg st i assignResp = .fail e st1) :
    e ≠ .fuelExhaustedInner ∧ e ≠ .fuelExhaustedOuter := by
  simp only [inner_body] at h
  split at h
  · injection h with h1 _
    subst h1
    exact ⟨by simp, by simp⟩
  · split at h
    · split at h
      · exact absurd h (by simp)
      · rcases plan_update_step_err h with h1 | ⟨c, h1⟩ <;> subst h1 <;>
          exact ⟨by simp, by simp⟩
    · exact absurd h (by simp)
    · rename_i e0 st4 heq
      injection h with h1 _
      subst h1
      rcases execute_phase_err heq with h2 | ⟨a, h2⟩ <;> subst h2 <;>
        exact ⟨by simp, by simp⟩

theorem inner_loop_no_exhaustion (cfg : WorkforceConfig) :
    ∀ fuel (st : RunState), st.responses.length < fuel →
      (inner_loop cfg fuel st).2 ≠ some .fuelExhaustedInner := by
  intro fuel
  induction fuel with
  | zero => intro st hst; omega
  | succ f ih =>
    intro st hst
    unfold inner_loop
    split
    · simp
    · split
      · simp
      · rename_i i hi resp rest heq
        split
        · rename_i st2 hbody
          refine ih st2 ?_
          have h1 := inner_body_state_le hbody
          simp only [InnerStep.state] at h1
          have h2 : rest.length + 1 = st.responses.length := by rw [heq]; rfl
          omega
        · simp
        · rename_i e st2 hbody
          have h3 := inner_body_err hbody
          intro hcontra
          exact h3.1 (Option.some_inj.mp hcontra)

theorem inner_loop_err {cfg : WorkforceConfig} :
    ∀ {fuel} {st : RunState} {e : RunErr},
      (inner_loop cfg fuel st).2 = some e → e ≠ .fuelExhaustedOuter := by
  intro fuel
  induction fuel with
  | zero =>
    intro st e h
    simp only [inner_loop] at h
    injection h with h1
    subst h1
    simp
  | succ f ih =>
    intro st e h
    unfold inner_loop at h
    split at h
    · simp at h
    · split at h
      · simp only [Option.some_inj] at h
        subst h
        simp
      · split at h
        · exact ih h
        · simp at h
        · rename_i e0 st2 hbody
          simp only [Option.some_inj] at h
          subst h
          exact (inner_body_err hbody).2

theorem gate_step_err {cfg : WorkforceConfig} {st : RunState} {count : Nat} {e : RunErr}
    {st1 : RunState} (h : gate_step cfg st count = .fail e st1) :
    e = .llmNoResponse ∨ e = .selfCheckUnpackTypeError := by
  simp only [gate_step] at h
  split at h
  · exact absurd h (by simp)
  · split at h
    · split at h
      · exact Or.inl (by injection h with h1 _; exact h1.symm)
      · exact absurd h (by simp)
    · split at h
      · exact Or.inl (by injection h with h1 _; exact h1.symm)
      · split at h
        · split at h
          · exact Or.inl (by injection h with h1 _; exact h1.symm)
          · exact absurd h (by simp)
        · split at h
          · exact Or.inl (by injection h with h1 _; exact h1.symm)
          · exact Or.inr (by injection h with h1 _; exact h1.symm)

theorem gate_step_reflect_lt {cfg : WorkforceConfig} {st : RunState} {count : Nat}
    {st1 : RunState} (h : gate_step cfg st count = .reflect st1) :
    count < cfg.planner_max_reflection := by
  simp only [gate_step] at h
  split at h
  · exact absurd h (by simp)
  · rename_i hle
    omega

theorem outer_loop_calls_le (cfg : WorkforceConfig) :
    ∀ fuel count calls (st : RunState),
      (outer_loop cfg fuel count calls st).planTaskCalls ≤ calls + fuel := by
  intro fuel
  induction fuel with
  | zero => intro count calls st; exact Nat.le_refl _
  | succ f ih =>
    intro count calls st
    simp only [outer_loop]
    split
    · dsimp only; omega
    · split
      · dsimp only; omega
      · split
        · dsimp only; omega
        · dsimp only; omega
        · rename_i st3 hgate
          have hrec := ih (count + 1) (calls + 1) st3
          omega

theorem outer_loop_no_exhaustion (cfg : WorkforceConfig) :
    ∀ fuel count calls (st : RunState),
      cfg.planner_max_reflection + 1 ≤ count + fuel → 1 ≤ fuel →
      (outer_loop cfg fuel count calls st).error ≠ some .fuelExhaustedOuter := by
  intro fuel
  induction fuel with
  | zero => intro _ _ _ _ h1; omega
  | succ f ih =>
    intro count calls st hcnt _
    simp only [outer_loop]
    split
    · simp
    · split
      · rename_i st2 e heq
        have herr := inner_loop_err (congrArg Prod.snd heq)
        intro hcontra
        exact herr (Option.some_inj.mp hcontra)
      · split
        · simp
        · rename_i e st3 hgate
          rcases gate_step_err hgate with h1 | h1 <;> subst h1 <;> simp
        · rename_i st3 hgate
          have hlt := gate_step_reflect_lt hgate
          exact ih (count + 1) (calls + 1) st3 (by omega) (by omega)

end WorkforceAgent

/-! ## Claim theorems. -/

/-- C1: the claim states `final_output = tentative_answer` iff the last
iteration reached the gate and passed both the quality check and the
self-check.  On this script both checks pass (confidence `high`,
uniqueness `unique`, self-check reply `yes`), yet the run aborts with the
`TypeError` from unpacking `answer_self_check`'s bare `bool` return before
line 124 can call `set_final_output`: `final_output` stays empty even
though the gate passed, so the right-to-left direction of the claimed
equivalence fails on the code. -/
theorem c1_gate_pass_crashes_without_final_output :
    (WorkforceAgent.run ⟨1, 3, ["MathExec"]⟩ "What is 21*2?" script_c1).error
        = some RunErr.selfCheckUnpackTypeError
    ∧ (WorkforceAgent.run ⟨1, 3, ["MathExec"]⟩ "What is 21*2?" script_c1).state.recorder.final_output
        = ""
    ∧ (WorkforceAgent.run ⟨1, 3, ["MathExec"]⟩ "What is 21*2?" script_c1).state.recorder.tentative_answer
        = "42"
    ∧ ((WorkforceAgent.run ⟨1, 3, ["MathExec"]⟩ "What is 21*2?" script_c1).state.recorder.check_tentative_answer_quality).1
        = true
    ∧ AnswererAgent.answer_self_check_value "<correct>yes</correct>" = true := by
  decide

/-- C2: the claim states that a run exiting without a successful gate pass
returns `final_output` equal to the most recent `tentative_answer`.  With
`planner_max_reflection = 1` this script fails the quality check once,
reflects, and the second iteration breaks on the exhausted reflection
budget: the run returns normally (`error = none`), the Answerer did run
(`tentative_answer = "X"`), but `final_output` is still empty, because the
fallback `else:` clause of the `while True:` loop (lines 127-129) is
unreachable — a `while True` loop only exits via `break`, which skips the
`else`.  The claimed fallback finalization does not happen on the code. -/
theorem c2_budget_exhausted_exit_leaves_final_output_empty :
    (WorkforceAgent.run ⟨1, 3, ["MathExec"]⟩ "q" script_c2).error = none
    ∧ (WorkforceAgent.run ⟨1, 3, ["MathExec"]⟩ "q" script_c2).state.recorder.tentative_answer = "X"
    ∧ (WorkforceAgent.run ⟨1, 3, ["MathExec"]⟩ "q" script_c2).state.recorder.final_output = ""
    ∧ ¬ ("" : String) = "X" := by
  decide

/-- C3: the claim states that `plan_task` on a ledger with empty
`failure_info` (its value at run entry) takes the initial-plan path, which
neither reads `failure_info` nor extracts `experience_from_failure`.  The
source instead branches on `failure_info is None`, and the field's
dataclass default is the empty *string*, so a fresh recorder takes the
replan path and does extract the experience tag. -/
theorem c3_fresh_recorder_takes_replan_path :
    ({ overall_task := "q" } : WorkforceTaskRecorder).failure_info = some ""
    ∧ (PlannerAgent.plan_task { overall_task := "q" }
        "<task>t</task><helpful_experience_or_fact>use the cache</helpful_experience_or_fact>").2
        = PlanPromptKind.replan
    ∧ (PlannerAgent.plan_task { overall_task := "q" }
        "<task>t</task><helpful_experience_or_fact>use the cache</helpful_experience_or_fact>").1.experience_from_failure
        = "use the cache" := by
  decide

/-- C4: the claim states the Answerer parser round-trips on every
well-formed triple, in particular that `<answer_uniqueness>non-unique</answer_uniqueness>`
parses back to `non-unique`.  Because `_check` tests `s.endswith("unique")`
and `"non-unique"` ends with `"unique"`, the `"unique"` branch fires first
and the canonical value `non-unique` is misparsed as `unique` — two
distinct well-formed triples parse to the same result, so the round-trip
fails exactly at `non-unique`. -/
theorem c4_non_unique_misparsed_as_unique :
    AnswererAgent.parse_final_response (AnswererAgent.serialize_final_answer "42" "high" "non-unique")
        = ("42", "high", "unique")
    ∧ AnswererAgent.parse_final_response (AnswererAgent.serialize_final_answer "42" "high" "unique")
        = ("42", "high", "unique")
    ∧ ¬ ("unique" : String) = "non-unique" := by
  decide

/-- C5: the claim states `answer_self_check` returns a pair
`(passed, analysis)` with `passed` true iff the `<correct>` tag's trimmed
lowercased content is `"yes"`.  The yes/no/missing-tag predicate is indeed
what the source computes (first three conjuncts), but the method returns
that bare `bool` — not a pair — and the orchestrator's unpacking
`self_check_passed, self_check_failure_analysis = ...` therefore raises
`TypeError` on every path that reaches the self-check, even a `no` reply
(last conjunct). -/
theorem c5_self_check_returns_bare_bool_and_unpack_crashes :
    AnswererAgent.answer_self_check_value "<correct> Yes </correct>" = true
    ∧ AnswererAgent.answer_self_check_value "<correct>no</correct>" = false
    ∧ AnswererAgent.answer_self_check_value "there is no tag here" = false
    ∧ (WorkforceAgent.run ⟨1, 3, ["MathExec"]⟩ "q" script_c5).error
        = some RunErr.selfCheckUnpackTypeError := by
  decide

/-- C6 counterexample: the claim states that an `ASSIGN_AGENT` assignment
to an unknown executor raises `AssignmentError`, seeds `failure_info`, and
triggers reflection.  On this concrete run the dictionary lookup
`executor_agent_group[...]` instead raises an uncaught `KeyError` that
aborts the run: `failure_info` keeps its initial empty value, the subtask
stays `not started`, and no replanning happens (`plan_task` ran exactly
once) even though the reflection budget (`planner_max_reflection = 1`)
remained. -/
theorem c6_unknown_executor_no_assignment_error :
    (WorkforceAgent.run ⟨1, 3, ["MathExec"]⟩ "q" script_c6).error
        = some (RunErr.executorKeyError "ghost")
    ∧ (WorkforceAgent.run ⟨1, 3, ["MathExec"]⟩ "q" script_c6).state.recorder.failure_info
        = some ""
    ∧ (WorkforceAgent.run ⟨1, 3, ["MathExec"]⟩ "q" script_c6).state.recorder.task_plan.map
        (fun t => t.task_status) = ["not started"]
    ∧ (WorkforceAgent.run ⟨1, 3, ["MathExec"]⟩ "q" script_c6).planTaskCalls = 1 := by
  decide

/-- C6 (amended): whenever the assigner reply parses to a mode other than
`DIRECT_ANSWER` and names an executor that is not a registry key, the
inner-loop body aborts with the uncaught `KeyError` (not an
`AssignmentError`): the plan entry has been mutated in place with the
assignment, but its status is untouched (still whatever it was, i.e.
`not started` for the task the assigner picked), `failure_info` is not
seeded, and no reflection is reached. -/
theorem c6_amended_unknown_executor_keyerror {cfg : WorkforceConfig} {st : RunState} {i : Nat}
    {assignResp : String} {res : AssignResult}
    (hparse : AssignerAgent.parse_assign_result assignResp = .ok res)
    (hmode : ¬ res.mode = "DIRECT_ANSWER")
    (hreg : res.assign_agent ∉ cfg.executor_agent_names) :
    WorkforceAgent.inner_body cfg st i assignResp =
      .fail (.executorKeyError res.assign_agent)
        ⟨st.recorder.set_task_at i
          (AssignerAgent.apply_assign_result
            (st.recorder.task_plan.getD i defaultSubtask) res),
          st.responses, st.budgets⟩
    ∧ (AssignerAgent.apply_assign_result
          (st.recorder.task_plan.getD i defaultSubtask) res).task_status
        = (st.recorder.task_plan.getD i defaultSubtask).task_status
    ∧ (st.recorder.set_task_at i
          (AssignerAgent.apply_assign_result
            (st.recorder.task_plan.getD i defaultSubtask) res)).failure_info
        = st.recorder.failure_info := by
  refine ⟨?_, ?_, rfl⟩
  · simp only [WorkforceAgent.inner_body, hparse]
    simp only [WorkforceAgent.execute_phase, AssignerAgent.apply_assign_result]
    have hb : (res.mode == "DIRECT_ANSWER") = false := by
      simp [hmode]
    rw [hb]
    simp [hreg]
  · simp only [AssignerAgent.apply_assign_result]
    split <;> rfl

/-- C6 (amended) witness: the amended theorem applied to the concrete
assigner reply of `script_c6` on a one-task plan. -/
theorem c6_amended_unknown_executor_keyerror_witness :
    WorkforceAgent.inner_body ⟨1, 3, ["MathExec"]⟩
        ⟨{ overall_task := "q", task_plan := [{ task_id := 1, task_name := "t" }] }, [], 3⟩ 0
        "<mode>ASSIGN_AGENT</mode><selected_agent>ghost</selected_agent><detailed_task_description>do it</detailed_task_description>"
      = .fail (.executorKeyError "ghost")
        ⟨({ overall_task := "q", task_plan := [{ task_id := 1, task_name := "t" }] }
            : WorkforceTaskRecorder).set_task_at 0
          (AssignerAgent.apply_assign_result
            (({ overall_task := "q", task_plan := [{ task_id := 1, task_name := "t" }] }
                : WorkforceTaskRecorder).task_plan.getD 0 defaultSubtask)
            ⟨"ASSIGN_AGENT", "ghost", "do it", ""⟩),
          [], 3⟩ :=
  (@c6_amended_unknown_executor_keyerror ⟨1, 3, ["MathExec"]⟩
      ⟨{ overall_task := "q", task_plan := [{ task_id := 1, task_name := "t" }] }, [], 3⟩ 0
      "<mode>ASSIGN_AGENT</mode><selected_agent>ghost</selected_agent><detailed_task_description>do it</detailed_task_description>"
      ⟨"ASSIGN_AGENT", "ghost", "do it", ""⟩
      (by rfl) (by decide) (by decide)).1

/-- C8: the plan-modify budget defaults to 3
(`workforce_config.get("planner_modify_budgets", 3)`); with the budget
exhausted (`<= 0`) every `plan_update` call returns `"continue"` with the
budget and the plan untouched (and, in the run model, without a model
call); whenever the parsed choice is `"update"` and budget remains, the
budget is decremented by exactly one; and starting from a non-negative
budget the result is never negative and never increases. -/
theorem c8_plan_modify_budget_invariants :
    getPlannerModifyBudgets none = 3
    ∧ (∀ (b : Int) (r : WorkforceTaskRecorder) (task : Subtask) (out : String), b ≤ 0 →
        PlannerAgent.plan_update b r task out = .ok ("continue", b, r))
    ∧ (∀ (b : Int) (r : WorkforceTaskRecorder) (task : Subtask) (out : String),
        0 < b → (PlannerAgent.parse_update_response out).1 = "update" →
        ∃ choice r1, PlannerAgent.plan_update b r task out = .ok (choice, b - 1, r1))
    ∧ (∀ (b : Int) (r : WorkforceTaskRecorder) (task : Subtask) (out : String)
        (choice : String) (b1 : Int) (r1 : WorkforceTaskRecorder), 0 ≤ b →
        PlannerAgent.plan_update b r task out = .ok (choice, b1, r1) → 0 ≤ b1 ∧ b1 ≤ b) := by
  refine ⟨rfl, ?_, ?_, ?_⟩
  · intro b r task out hb
    simp [PlannerAgent.plan_update, hb]
  · intro b r task out hb hch
    simp only [PlannerAgent.plan_update, hch]
    rw [if_neg (by omega)]
    cases hopt : (PlannerAgent.parse_update_response out).2 with
    | none => exact ⟨"continue", r, by simp [hopt]⟩
    | some up =>
      by_cases hlen : 0 < up.length
      · exact ⟨"update", r.plan_update task up, by simp [hopt, hlen]⟩
      · exact ⟨"continue", r, by simp [hopt, hlen]⟩
  · intro b r task out choice b1 r1 hb h
    simp only [PlannerAgent.plan_update] at h
    split at h
    · simp only [Except.ok.injEq, Prod.mk.injEq] at h
      obtain ⟨-, hb1, -⟩ := h
      omega
    · split at h
      · simp only [Except.ok.injEq, Prod.mk.injEq] at h
        obtain ⟨-, hb1, -⟩ := h
        omega
      · split at h
        · split at h
          · split at h <;>
              (simp only [Except.ok.injEq, Prod.mk.injEq] at h
               obtain ⟨-, hb1, -⟩ := h
               omega)
          · simp only [Except.ok.injEq, Prod.mk.injEq] at h
            obtain ⟨-, hb1, -⟩ := h
            omega
        · split at h
          · simp only [Except.ok.injEq, Prod.mk.injEq] at h
            obtain ⟨-, hb1, -⟩ := h
            omega
          · exact absurd h (by simp)

/-- C8 witness: with the budget at zero, even an explicit `update` reply
is coerced to `continue` and the recorder is unchanged. -/
theorem c8_plan_modify_budget_invariants_witness :
    PlannerAgent.plan_update 0 {} { task_id := 1, task_name := "a" }
        "<choice>update</choice><updated_unfinished_task_plan><task>b</task></updated_unfinished_task_plan>"
      = .ok ("continue", 0, ({} : WorkforceTaskRecorder)) :=
  c8_plan_modify_budget_invariants.2.1 0 {} { task_id := 1, task_name := "a" }
    "<choice>update</choice><updated_unfinished_task_plan><task>b</task></updated_unfinished_task_plan>"
    (by decide)

/-- C9: over every configuration and response script, the number of
`plan_task` calls a run makes is at most `planner_max_reflection + 1`: the
outer loop's counter check breaks the `while True` loop at the end of
iteration `planner_max_reflection + 1` at the latest (the companion lemmas
`outer_loop_no_exhaustion` and `inner_loop_no_exhaustion` show the
interpreter's fuel never terminates a run early, so the bound is a
property of the loop, not of the fuel). -/
theorem c9_plan_task_call_bound (cfg : WorkforceConfig) (input : String)
    (responses : List String) (_hrefl : 1 ≤ cfg.planner_max_reflection) :
    (WorkforceAgent.run cfg input responses).planTaskCalls
      ≤ cfg.planner_max_reflection + 1 := by
  simp only [WorkforceAgent.run]
  have h := WorkforceAgent.outer_loop_calls_le cfg (cfg.planner_max_reflection + 1) 0 0
    ⟨{ overall_task := input }, responses, cfg.planner_modify_budgets⟩
  omega

/-- C9 witness: the bound instantiated on the `script_c2` run. -/
theorem c9_plan_task_call_bound_witness :
    (WorkforceAgent.run ⟨1, 3, ["MathExec"]⟩ "q" script_c2).planTaskCalls ≤ 2 :=
  c9_plan_task_call_bound ⟨1, 3, ["MathExec"]⟩ "q" script_c2 (by decide)

/-- C10: `_parse_assign_result` raises its `ValueError` whenever the
`<mode>` tag or the `<selected_agent>` tag is missing (the `.group(1)`
attribute error on a failed search is caught and re-raised); and any
stripped mode other than the exact, case-sensitive string
`"DIRECT_ANSWER"` falls into the `else` branch, where a missing
`<detailed_task_description>` raises the same error, and a successful
parse is applied to the subtask as `ASSIGN_AGENT` mode. -/
theorem c10_assigner_parse_requirements (response : String) :
    (extractTagFirst "mode" response = none →
      ∃ msg, AssignerAgent.parse_assign_result response = .error msg)
    ∧ (extractTagFirst "selected_agent" response = none →
      ∃ msg, AssignerAgent.parse_assign_result response = .error msg)
    ∧ (∀ m, extractTagFirst "mode" response = some m → ¬ pyStrip m = "DIRECT_ANSWER" →
        (extractTagFirst "detailed_task_description" response = none →
          ∃ msg, AssignerAgent.parse_assign_result response = .error msg)
        ∧ (∀ res, AssignerAgent.parse_assign_result response = .ok res →
            res.mode = pyStrip m
            ∧ ∀ t : Subtask,
                (AssignerAgent.apply_assign_result t res).task_mode = some "ASSIGN_AGENT")) := by
  refine ⟨?_, ?_, ?_⟩
  · intro hmode
    exact ⟨"Failed to parse assignment result",
      by simp [AssignerAgent.parse_assign_result, hmode]⟩
  · intro hagent
    refine ⟨"Failed to parse assignment result", ?_⟩
    simp only [AssignerAgent.parse_assign_result, hagent]
    split <;> rfl
  · intro m hm hnd
    have hbeq : (pyStrip m == "DIRECT_ANSWER") = false := by
      simp [hnd]
    constructor
    · intro hdesc
      refine ⟨"Failed to parse assignment result", ?_⟩
      simp only [AssignerAgent.parse_assign_result, hm, hbeq, hdesc]
      split <;> rfl
    · intro res hres
      simp only [AssignerAgent.parse_assign_result, hm, hbeq] at hres
      split at hres
      · exact absurd hres (by simp)
      · split at hres
        · rename_i hft
          exact absurd hft (by simp)
        · split at hres
          · exact absurd hres (by simp)
          · simp only [Except.ok.injEq] at hres
            subst hres
            refine ⟨rfl, fun t => ?_⟩
            simp [AssignerAgent.apply_assign_result, hbeq]

/-- C10 witness: a lowercase `<mode>assign_agent</mode>` is not
`DIRECT_ANSWER`, so with no `<detailed_task_description>` tag the parse
raises. -/
theorem c10_assigner_parse_requirements_witness :
    ∃ msg, AssignerAgent.parse_assign_result
        "<mode>assign_agent</mode><selected_agent>a</selected_agent>" = .error msg :=
  ((c10_assigner_parse_requirements
      "<mode>assign_agent</mode><selected_agent>a</selected_agent>").2.2
    "assign_agent" (by rfl) (by decide)).1 (by rfl)

theorem getD_take_of_lt {α : Type} :
    ∀ (l : List α) (n i : Nat) (d : α), i < n → (l.take n).getD i d = l.getD i d := by
  intro l
  induction l with
  | nil => intro n i d _; simp
  | cons a as ih =>
    intro n i d h
    cases n with
    | zero => omega
    | succ m =>
      cases i with
      | zero => rfl
      | succ k => simpa using ih m k d (by omega)

theorem materialize_enumFrom_getD (n : Nat) (names : List String) :
    ∀ k, k < names.length →
      ((List.enumFrom n names).map
          (fun it => ({ task_id := it.1 + 1, task_name := it.2 } : Subtask))).getD k defaultSubtask
        = { task_id := n + k + 1, task_name := names.getD k "" } := by
  induction names generalizing n with
  | nil => intro k h; simp at h
  | cons a as ih =>
    intro k h
    cases k with
    | zero => simp [List.enumFrom]
    | succ k0 =>
      have hrec := ih (n + 1) k0 (by simpa using Nat.lt_of_succ_lt_succ h)
      simp only [List.enumFrom, List.map, List.getD] at hrec ⊢
      rw [show n + 1 + k0 = n + (k0 + 1) by omega] at hrec
      exact hrec

theorem new_tasks_enumFrom_getD (c n : Nat) (up : List String) :
    ∀ k, k < up.length →
      ((List.enumFrom n up).map
          (fun it => ({ task_id := c + it.1 + 1, task_name := it.2 } : Subtask))).getD k defaultSubtask
        = { task_id := c + (n + k) + 1, task_name := up.getD k "" } := by
  induction up generalizing n with
  | nil => intro k h; simp at h
  | cons a as ih =>
    intro k h
    cases k with
    | zero => simp [List.enumFrom]
    | succ k0 =>
      have hrec := ih (n + 1) k0 (by simpa using Nat.lt_of_succ_lt_succ h)
      simp only [List.enumFrom, List.map, List.getD] at hrec ⊢
      rw [show n + 1 + k0 = n + (k0 + 1) by omega] at hrec
      exact hrec

theorem materialize_contiguous (names : List String) :
    planIdsContiguous (PlannerAgent.materialize_subtasks names) := by
  intro j hj
  have hlen : (PlannerAgent.materialize_subtasks names).length = names.length := by
    simp [PlannerAgent.materialize_subtasks, List.enum]
  rw [hlen] at hj
  have h := materialize_enumFrom_getD 0 names j hj
  simp only [PlannerAgent.materialize_subtasks, List.enum] at h ⊢
  rw [h]
  simp

/-- C7: after every `plan_task` (whose `plan_init` installs the
materialized `<task>` list) the subtask ids are the contiguous sequence
`1..N`; and `plan_update` at cursor `c = task.task_id` (within the current
plan) yields a plan of length `c + |tail|` whose first `c` entries are the
old entries verbatim, whose tail entries are fresh `not started` subtasks
named from the update and numbered `c+1, c+2, …`, and whose ids are again
contiguous. -/
theorem c7_plan_id_invariants :
    (∀ (r : WorkforceTaskRecorder) (modelOutput : String),
        planIdsContiguous ((PlannerAgent.plan_task r modelOutput).1.task_plan))
    ∧ (∀ (r : WorkforceTaskRecorder) (task : Subtask) (up : List String),
        planIdsContiguous r.task_plan → task.task_id ≤ r.task_plan.length →
        (r.plan_update task up).task_plan.length = task.task_id + up.length
        ∧ (∀ j, j < task.task_id →
            (r.plan_update task up).task_plan.getD j defaultSubtask
              = r.task_plan.getD j defaultSubtask)
        ∧ (∀ j, task.task_id ≤ j → j < task.task_id + up.length →
            (r.plan_update task up).task_plan.getD j defaultSubtask
              = { task_id := j + 1, task_name := up.getD (j - task.task_id) "" })
        ∧ planIdsContiguous (r.plan_update task up).task_plan) := by
  constructor
  · intro r modelOutput
    cases hf : r.failure_info with
    | none =>
      simp only [PlannerAgent.plan_task, hf, WorkforceTaskRecorder.plan_init]
      exact materialize_contiguous _
    | some s =>
      simp only [PlannerAgent.plan_task, hf, WorkforceTaskRecorder.plan_init]
      split
      · split
        · simp only [WorkforceTaskRecorder.update_experience_from_failure]
          exact materialize_contiguous _
        · exact materialize_contiguous _
      · exact materialize_contiguous _
  · intro r task up hcontig hc
    have hlentake : (r.task_plan.take task.task_id).length = task.task_id := by
      simp [List.length_take, Nat.min_eq_left hc]
    have hlennew :
        ((List.enumFrom 0 up).map
            (fun it => ({ task_id := task.task_id + it.1 + 1, task_name := it.2 } : Subtask))).length
          = up.length := by
      simp [List.enumFrom_length]
    have hplan :
        (r.plan_update task up).task_plan
          = r.task_plan.take task.task_id
            ++ (List.enumFrom 0 up).map
                (fun it => ({ task_id := task.task_id + it.1 + 1, task_name := it.2 } : Subtask)) := by
      simp [WorkforceTaskRecorder.plan_update, List.enum]
    have hlen : (r.plan_update task up).task_plan.length = task.task_id + up.length := by
      rw [hplan, List.length_append, hlentake, hlennew]
    have hpre : ∀ j, j < task.task_id →
        (r.plan_update task up).task_plan.getD j defaultSubtask
          = r.task_plan.getD j defaultSubtask := by
      intro j hj
      rw [hplan, List.getD_append _ _ _ _ (by omega), getD_take_of_lt _ _ _ _ hj]
    have htail : ∀ j, task.task_id ≤ j → j < task.task_id + up.length →
        (r.plan_update task up).task_plan.getD j defaultSubtask
          = { task_id := j + 1, task_name := up.getD (j - task.task_id) "" } := by
      intro j hj1 hj2
      rw [hplan, List.getD_append_right _ _ _ _ (by omega), hlentake]
      have hk := new_tasks_enumFrom_getD task.task_id 0 up (j - task.task_id) (by omega)
      rw [hk]
      have harith : task.task_id + (0 + (j - task.task_id)) + 1 = j + 1 := by omega
      rw [harith]
    refine ⟨hlen, hpre, htail, ?_⟩
    intro j hj
    rw [hlen] at hj
    by_cases hcase : j < task.task_id
    · rw [hpre j hcase]
      exact hcontig j (by omega)
    · rw [htail j (by omega) hj]

/-- C7 witness: the spec's S2 scenario — updating after subtask 1 of the
plan `[A (success), B]` with the new tail `[B2, C]` keeps entry 1 verbatim
and renumbers the tail `2, 3`. -/
theorem c7_plan_id_invariants_witness :
    (({ task_plan := [{ task_id := 1, task_name := "A", task_status := "success" },
          { task_id := 2, task_name := "B" }] } : WorkforceTaskRecorder).plan_update
        { task_id := 1, task_name := "A", task_status := "success" }
        ["B2", "C"]).task_plan.length = 1 + 2 :=
  (c7_plan_id_invariants.2
    { task_plan := [{ task_id := 1, task_name := "A", task_status := "success" },
        { task_id := 2, task_name := "B" }] }
    { task_id := 1, task_name := "A", task_status := "success" }
    ["B2", "C"]
    (by
      intro j hj
      simp only [List.length_cons, List.length_nil] at hj
      interval_cases j <;> rfl)
    (by decide)).1
